import Mathlib

/-!
Shallow embedding of the catalog service in src/server.js: an Express app over a
Mongoose model (collection "productos"), with a unique sparse multikey index on
"variantes.codigo_barras".  The store is modelled as a list of documents and each
route as a function taking the current time explicitly.

Semantics of the storage layer embedded here (MongoDB / Mongoose, which the code
delegates to):
* a unique multikey index constrains index keys across distinct documents only;
  one document may repeat a value inside its own array;
* a sparse index skips documents in which the indexed path yields no value at
  all; an empty string is a value and is indexed;
* passing a plain object (no update operators) to findOneAndUpdate makes
  Mongoose wrap it in a set operator, so PUT merges supplied fields into the
  stored document rather than replacing it; absent fields keep stored values;
* with upsert, a missing document is inserted from the filter id plus the set
  fields, schema defaults filling the rest (setDefaultsOnInsert);
* update validators (runValidators on PATCH) run before the query executes, so
  an invalid body fails with ValidationError even when no document matches;
* document validation on create treats an empty string as missing for a
  required String path;
* the pre save and pre findOneAndUpdate hooks stamp actualizado_en with the
  current time on every write, overriding any value supplied in the body.
-/

namespace Catalogo

/-- A packaging variant, per VarianteSchema.  A field is None when the stored
document carries no value (null or absent).  codigo_barras is declared required,
but PUT skips validation, so a stored variant may lack it. -/
structure Variante where
  codigo_barras : Option String
  forma_farmaceutica : Option String
  concentracion_dosis : Option String
  unidades_por_paquete : Option Int
  deriving Repr, DecidableEq

/-- A stored product document, per ProductoSchema.  habilitado, keywords and
variantes always carry values because their schema defaults apply on every
insert path; codigo_atc and requiere_receta default to null (None).  Timestamps
are naturals. -/
structure Producto where
  id : String
  nombre : Option String
  codigo_atc : Option String
  requiere_receta : Option Bool
  habilitado : Bool
  keywords : List String
  variantes : List Variante
  creado_en : Nat
  actualizado_en : Nat
  deriving Repr, DecidableEq

/-- A request body (JSON) for POST, PUT and PATCH.  An outer None means the
field is absent from the body.  For the two nullable scalar fields the inner
Option distinguishes an explicit null from a value. -/
structure Body where
  _id : Option String
  nombre : Option String
  codigo_atc : Option (Option String)
  requiere_receta : Option (Option Bool)
  habilitado : Option Bool
  keywords : Option (List String)
  variantes : Option (List Variante)
  creado_en : Option Nat
  actualizado_en : Option Nat
  deriving Repr, DecidableEq

/-- The body with every field absent. -/
def emptyBody : Body :=
  { _id := none, nombre := none, codigo_atc := none, requiere_receta := none,
    habilitado := none, keywords := none, variantes := none,
    creado_en := none, actualizado_en := none }

/-- A variant with every field absent except the given barcode. -/
def bareVariante (c : Option String) : Variante :=
  { codigo_barras := c, forma_farmaceutica := none,
    concentracion_dosis := none, unidades_por_paquete := none }

/-- Typed failures surfaced by the operations.  immutableId models the storage
error raised when an update tries to change the immutable _id. -/
inductive Err where
  | notFound
  | conflict
  | validationError
  | immutableId
  deriving Repr, DecidableEq

/-- The catalog state: the list of stored documents. -/
abbrev State := List Producto

/-- The keys a document contributes to the unique sparse multikey index over
variantes.codigo_barras: the barcode values present in its variants, one index
key per distinct value (the index stores a key set per document).  A document
none of whose variants carries a barcode contributes no key (sparse). -/
def barcodeKeys (p : Producto) : List String :=
  (p.variantes.filterMap (fun v => v.codigo_barras)).dedup

/-- Whether writing document p would collide in the unique index with some
other stored document: a shared index key with a document of a different id.
Keys repeated inside p itself do not collide. -/
def hasDupKeyAgainst (p : Producto) (s : State) : Bool :=
  s.any (fun q => q.id != p.id && (barcodeKeys p).any (fun c => (barcodeKeys q).contains c))

/-- Mongoose required check for a String path: present and non-empty. -/
def validString : Option String → Bool
  | some str => str != ""
  | none => false

/-- Document validation run by Producto.create: _id and nombre are required
Strings, and each supplied variant requires codigo_barras. -/
def validateCreate (b : Body) : Bool :=
  validString b._id && validString b.nombre &&
    (b.variantes.getD []).all (fun v => validString v.codigo_barras)

/-- Update validation run by findOneAndUpdate with runValidators (PATCH):
validators run only on the paths present in the update. -/
def validatePatch (b : Body) : Bool :=
  (match b.nombre with | some n => n != "" | none => true) &&
    (match b.variantes with
     | some vs => vs.all (fun v => validString v.codigo_barras)
     | none => true)

/-- The document inserted by Producto.create from a body: schema defaults for
absent fields, creado_en defaulting to now, and the pre save hook stamping
actualizado_en with now regardless of the body. -/
def castCreate (now : Nat) (b : Body) : Producto :=
  { id := b._id.getD ""
    nombre := b.nombre
    codigo_atc := b.codigo_atc.getD none
    requiere_receta := b.requiere_receta.getD none
    habilitado := b.habilitado.getD true
    keywords := b.keywords.getD []
    variantes := b.variantes.getD []
    creado_en := b.creado_en.getD now
    actualizado_en := now }

/-- POST /productos: validate, then insert; a duplicate _id or a duplicate
barcode key raises the storage duplicate-key error (conflict). -/
def create (now : Nat) (b : Body) (s : State) : Except Err (Producto × State) :=
  if !validateCreate b then .error .validationError
  else if s.any (fun q => q.id == (castCreate now b).id) then .error .conflict
  else if hasDupKeyAgainst (castCreate now b) s then .error .conflict
  else .ok (castCreate now b, s ++ [castCreate now b])

/-- GET /productos/:id (findById). -/
def getById (id : String) (s : State) : Except Err Producto :=
  match s.find? (fun q => q.id == id) with
  | some d => .ok d
  | none => .error .notFound

/-- Applying the set operator built from a body to a stored document: fields
present in the body overwrite, absent fields keep their stored values, and the
pre findOneAndUpdate hook forces actualizado_en to now. -/
def applySet (now : Nat) (b : Body) (old : Producto) : Producto :=
  { id := old.id
    nombre := match b.nombre with | some n => some n | none => old.nombre
    codigo_atc := b.codigo_atc.getD old.codigo_atc
    requiere_receta := b.requiere_receta.getD old.requiere_receta
    habilitado := b.habilitado.getD old.habilitado
    keywords := b.keywords.getD old.keywords
    variantes := b.variantes.getD old.variantes
    creado_en := b.creado_en.getD old.creado_en
    actualizado_en := now }

/-- The document inserted by an upsert when no document matches: the filter id,
the set fields from the body, schema defaults for the rest, actualizado_en
stamped by the hook.  No validation runs on this path. -/
def upsertInsert (now : Nat) (id : String) (b : Body) : Producto :=
  { id := id
    nombre := b.nombre
    codigo_atc := b.codigo_atc.getD none
    requiere_receta := b.requiere_receta.getD none
    habilitado := b.habilitado.getD true
    keywords := b.keywords.getD []
    variantes := b.variantes.getD []
    creado_en := b.creado_en.getD now
    actualizado_en := now }

/-- PUT /productos/:id: findOneAndUpdate with upsert and no validators.  The
body becomes a set merge; a body _id differing from the path id would change
the immutable _id; the unique index is re-checked on the written document. -/
def put (now : Nat) (id : String) (b : Body) (s : State) : Except Err (Producto × State) :=
  if b._id.any (fun i => i != id) then .error .immutableId
  else
    match s.find? (fun q => q.id == id) with
    | some old =>
        if hasDupKeyAgainst (applySet now b old) s then .error .conflict
        else .ok (applySet now b old,
          s.map (fun q => if q.id == id then applySet now b old else q))
    | none =>
        if hasDupKeyAgainst (upsertInsert now id b) s then .error .conflict
        else .ok (upsertInsert now id b, s ++ [upsertInsert now id b])

/-- PATCH /productos/:id: findOneAndUpdate with a set update, runValidators and
no upsert.  Update validators run before the query, so an invalid body fails
even for a missing id; a missing id then yields notFound with the state
untouched. -/
def patch (now : Nat) (id : String) (b : Body) (s : State) : Except Err (Producto × State) :=
  if !validatePatch b then .error .validationError
  else
    match s.find? (fun q => q.id == id) with
    | none => .error .notFound
    | some old =>
        if b._id.any (fun i => i != id) then .error .immutableId
        else if hasDupKeyAgainst (applySet now b old) s then .error .conflict
        else .ok (applySet now b old,
          s.map (fun q => if q.id == id then applySet now b old else q))

/-- DELETE /productos/:id (findByIdAndDelete): removes the matching document. -/
def deleteById (id : String) (s : State) : Except Err State :=
  if s.any (fun q => q.id == id) then .ok (s.eraseP (fun q => q.id == id))
  else .error .notFound

/-- GET /productos/codigos-barras/:ean (findOne on variantes.codigo_barras). -/
def findByBarcode (ean : String) (s : State) : Except Err Producto :=
  match s.find? (fun q => q.variantes.any (fun v => v.codigo_barras == some ean)) with
  | some d => .ok d
  | none => .error .notFound

/-- The query predicate built by GET /productos from the optional parameters.
texto and atc are skipped when absent or empty (JS falsiness); rx and
habilitado filter on equality with the string "true" whenever present.  Text
search semantics are storage defined, so the text matcher is a parameter. -/
def matchesQuery (tmatch : String → Producto → Bool)
    (texto atc rx habilitado : Option String) (p : Producto) : Bool :=
  (match texto with | some t => t == "" || tmatch t p | none => true) &&
    (match atc with | some a => a == "" || p.codigo_atc == some a | none => true) &&
    (match rx with | some r => p.requiere_receta == some (r == "true") | none => true) &&
    (match habilitado with | some h => p.habilitado == (h == "true") | none => true)

/-- GET /productos: find with the built query, then limit and skip, with
limit defaulting to 50 and skip to 0.  MongoDB applies skip before limit. -/
def search (tmatch : String → Producto → Bool)
    (texto atc rx habilitado : Option String) (limit skip : Option Nat)
    (s : State) : List Producto :=
  ((s.filter (matchesQuery tmatch texto atc rx habilitado)).drop (skip.getD 0)).take
    (limit.getD 50)

/-- The error middleware: a storage duplicate-key error maps to 409; every
other error reaching it, validation failures included, maps to 500. -/
def errStatus : Err → Nat
  | .conflict => 409
  | _ => 500

/-- HTTP status of POST /productos. -/
def postStatus (now : Nat) (b : Body) (s : State) : Nat :=
  match create now b s with
  | .ok _ => 201
  | .error e => errStatus e

/-- HTTP status of PATCH /productos/:id: a null document maps inline to 404,
other failures go to the error middleware. -/
def patchStatus (now : Nat) (id : String) (b : Body) (s : State) : Nat :=
  match patch now id b s with
  | .ok _ => 200
  | .error .notFound => 404
  | .error e => errStatus e

/-- Response of DELETE /productos/:id: status and optional JSON detail text.
Success is 204 with an empty body (res.status 204 end). -/
def deleteResponse (id : String) (s : State) : Nat × Option String :=
  match deleteById id s with
  | .ok _ => (204, none)
  | .error _ => (404, some "No existe")

/-- A mutating write, for stating state invariants uniformly. -/
inductive WriteOp where
  | createOp (b : Body)
  | putOp (id : String) (b : Body)
  | patchOp (id : String) (b : Body)
  deriving Repr

/-- The body carried by a write. -/
def WriteOp.body : WriteOp → Body
  | .createOp b => b
  | .putOp _ b => b
  | .patchOp _ b => b

/-- The state after a write: the new state on success, the old state when the
operation failed. -/
def applyWrite (now : Nat) (op : WriteOp) (s : State) : State :=
  match op with
  | .createOp b => match create now b s with | .ok (_, s2) => s2 | .error _ => s
  | .putOp id b => match put now id b s with | .ok (_, s2) => s2 | .error _ => s
  | .patchOp id b => match patch now id b s with | .ok (_, s2) => s2 | .error _ => s

/-- The cross-document uniqueness invariant enforced by the unique sparse
index: variants on two distinct stored products never share a barcode value. -/
def crossDocUnique (s : State) : Prop :=
  ∀ p ∈ s, ∀ q ∈ s, p.id ≠ q.id → ∀ c ∈ barcodeKeys p, c ∉ barcodeKeys q

/-- The timestamp invariant of the data model: every stored product has
actualizado_en at or after creado_en. -/
def timestampsOrdered (s : State) : Prop :=
  ∀ p ∈ s, p.creado_en ≤ p.actualizado_en

/-- A concrete valid create body: one variant, barcode 111. -/
def bodyP1 : Body :=
  { emptyBody with
    _id := some "P1", nombre := some "Para",
    variantes := some [bareVariante (some "111")] }

/-! ### Lemmas about the unique index check and the write operations -/

theorem hasDupKeyAgainst_eq_false_iff {d : Producto} {s : State} :
    hasDupKeyAgainst d s = false ↔
      ∀ q ∈ s, q.id ≠ d.id → ∀ c ∈ barcodeKeys d, c ∉ barcodeKeys q := by
  simp [hasDupKeyAgainst, List.contains_iff_exists_mem_beq]

theorem create_ok_spec {now : Nat} {b : Body} {s : State} {p : Producto} {s2 : State}
    (h : create now b s = .ok (p, s2)) :
    p = castCreate now b ∧ s2 = s ++ [p] ∧ hasDupKeyAgainst p s = false ∧
      validateCreate b = true ∧ (∀ q ∈ s, q.id ≠ p.id) := by
  unfold create at h
  split at h
  · exact absurd h (by simp)
  · next hv =>
    split at h
    · exact absurd h (by simp)
    · next hid =>
      split at h
      · exact absurd h (by simp)
      · next hdup =>
        injection h with h2
        injection h2 with hp hs2
        subst hp; subst hs2
        refine ⟨rfl, rfl, by simpa using hdup, by simpa using hv, ?_⟩
        intro q hq
        have hid2 : ∀ x ∈ s, ¬ x.id = (castCreate now b).id := by simpa using hid
        exact hid2 q hq

theorem put_ok_spec {now : Nat} {id : String} {b : Body} {s : State} {p : Producto}
    {s2 : State} (h : put now id b s = .ok (p, s2)) :
    hasDupKeyAgainst p s = false ∧ p.id = id ∧
      ((p = upsertInsert now id b ∧ s2 = s ++ [p]) ∨
        (∃ old, old ∈ s ∧ old.id = id ∧ p = applySet now b old ∧
          s2 = s.map (fun q => if q.id == id then p else q))) := by
  unfold put at h
  split at h
  · exact absurd h (by simp)
  · split at h
    · next old hfind =>
      have hoid : old.id = id := by
        have := List.find?_some hfind
        simpa using this
      have homem : old ∈ s := List.mem_of_find?_eq_some hfind
      split at h
      · exact absurd h (by simp)
      · next hdup =>
        injection h with h2
        injection h2 with hp hs2
        subst hp; subst hs2
        exact ⟨by simpa using hdup, by simp [applySet, hoid],
          Or.inr ⟨old, homem, hoid, rfl, rfl⟩⟩
    · next hfind =>
      split at h
      · exact absurd h (by simp)
      · next hdup =>
        injection h with h2
        injection h2 with hp hs2
        subst hp; subst hs2
        exact ⟨by simpa using hdup, rfl, Or.inl ⟨rfl, rfl⟩⟩

theorem patch_ok_spec {now : Nat} {id : String} {b : Body} {s : State} {p : Producto}
    {s2 : State} (h : patch now id b s = .ok (p, s2)) :
    hasDupKeyAgainst p s = false ∧ p.id = id ∧
      s2 = s.map (fun q => if q.id == id then p else q) ∧
      (∃ old, old ∈ s ∧ old.id = id ∧ p = applySet now b old) := by
  unfold patch at h
  split at h
  · exact absurd h (by simp)
  · split at h
    · exact absurd h (by simp)
    · next old hfind =>
      have hoid : old.id = id := by
        have := List.find?_some hfind
        simpa using this
      have homem : old ∈ s := List.mem_of_find?_eq_some hfind
      split at h
      · exact absurd h (by simp)
      · split at h
        · exact absurd h (by simp)
        · next hdup =>
          injection h with h2
          injection h2 with hp hs2
          subst hp; subst hs2
          exact ⟨by simpa using hdup, by simp [applySet, hoid], rfl,
            old, homem, hoid, rfl⟩

theorem crossDocUnique_append {s : State} {d : Producto}
    (hs : crossDocUnique s) (hd : hasDupKeyAgainst d s = false) :
    crossDocUnique (s ++ [d]) := by
  have hd' := hasDupKeyAgainst_eq_false_iff.mp hd
  intro p hp q hq hne c hcp hcq
  rcases List.mem_append.mp hp with hp1 | hp1 <;>
    rcases List.mem_append.mp hq with hq1 | hq1
  · exact hs p hp1 q hq1 hne c hcp hcq
  · have hqd : q = d := by simpa using hq1
    have hne2 : p.id ≠ d.id := by rw [← hqd]; exact hne
    have hcq2 : c ∈ barcodeKeys d := by rw [← hqd]; exact hcq
    exact hd' p hp1 hne2 c hcq2 hcp
  · have hpd : p = d := by simpa using hp1
    have hne2 : q.id ≠ d.id := by rw [← hpd]; exact fun h2 => hne h2.symm
    have hcp2 : c ∈ barcodeKeys d := by rw [← hpd]; exact hcp
    exact hd' q hq1 hne2 c hcp2 hcq
  · have hpd : p = d := by simpa using hp1
    have hqd : q = d := by simpa using hq1
    exact hne (by rw [hpd, hqd])

theorem crossDocUnique_update {s : State} {d : Producto} {i : String}
    (hs : crossDocUnique s) (hd : hasDupKeyAgainst d s = false) (hdi : d.id = i) :
    crossDocUnique (s.map (fun q => if q.id == i then d else q)) := by
  have hd' := hasDupKeyAgainst_eq_false_iff.mp hd
  intro p hp q hq hne c hcp hcq
  obtain ⟨p0, hp0, hp0e⟩ := List.mem_map.mp hp
  obtain ⟨q0, hq0, hq0e⟩ := List.mem_map.mp hq
  by_cases hpi : p0.id = i <;> by_cases hqi : q0.id = i
  · have hpd : p = d := by rw [← hp0e]; simp [hpi]
    have hqd : q = d := by rw [← hq0e]; simp [hqi]
    exact hne (by rw [hpd, hqd])
  · have hpd : p = d := by rw [← hp0e]; simp [hpi]
    have hqq : q = q0 := by rw [← hq0e]; simp [hqi]
    have hne2 : q0.id ≠ d.id := by rw [hdi]; exact hqi
    have hcp2 : c ∈ barcodeKeys d := by rw [← hpd]; exact hcp
    have hcq2 : c ∈ barcodeKeys q0 := by rw [← hqq]; exact hcq
    exact hd' q0 hq0 hne2 c hcp2 hcq2
  · have hqd : q = d := by rw [← hq0e]; simp [hqi]
    have hpp : p = p0 := by rw [← hp0e]; simp [hpi]
    have hne2 : p0.id ≠ d.id := by rw [hdi]; exact hpi
    have hcq2 : c ∈ barcodeKeys d := by rw [← hqd]; exact hcq
    have hcp2 : c ∈ barcodeKeys p0 := by rw [← hpp]; exact hcp
    exact hd' p0 hp0 hne2 c hcq2 hcp2
  · have hpp : p = p0 := by rw [← hp0e]; simp [hpi]
    have hqq : q = q0 := by rw [← hq0e]; simp [hqi]
    have hne2 : p0.id ≠ q0.id := by rw [← hpp, ← hqq]; exact hne
    have hcp2 : c ∈ barcodeKeys p0 := by rw [← hpp]; exact hcp
    have hcq2 : c ∈ barcodeKeys q0 := by rw [← hqq]; exact hcq
    exact hs p0 hp0 q0 hq0 hne2 c hcp2 hcq2

/-! ### Claim C1 -/

/-- Claim C1 (amended): across distinct products, barcode uniqueness is an
invariant: if no two variants on different stored products share a barcode
value, then after any write (Create, Replace, PartialUpdate) this still holds,
every write that would introduce a cross-product duplicate being rejected with
a conflict.  The claim as stated is false for two variants inside one product's
own array: a unique multikey index constrains distinct documents only. -/
theorem writes_preserve_crossDocUnique (now : Nat) (op : WriteOp) (s : State)
    (hs : crossDocUnique s) : crossDocUnique (applyWrite now op s) := by
  cases op with
  | createOp b =>
    simp only [applyWrite]
    cases h : create now b s with
    | error e => exact hs
    | ok r =>
      obtain ⟨p, s2⟩ := r
      obtain ⟨-, hs2, hdup, -, -⟩ := create_ok_spec h
      subst hs2
      exact crossDocUnique_append hs hdup
  | putOp id b =>
    simp only [applyWrite]
    cases h : put now id b s with
    | error e => exact hs
    | ok r =>
      obtain ⟨p, s2⟩ := r
      obtain ⟨hdup, hpid, hcase⟩ := put_ok_spec h
      rcases hcase with ⟨-, h2⟩ | ⟨old, -, -, -, h2⟩ <;> subst h2
      · exact crossDocUnique_append hs hdup
      · exact crossDocUnique_update hs hdup hpid
  | patchOp id b =>
    simp only [applyWrite]
    cases h : patch now id b s with
    | error e => exact hs
    | ok r =>
      obtain ⟨p, s2⟩ := r
      obtain ⟨hdup, hpid, h2, -⟩ := patch_ok_spec h
      subst h2
      exact crossDocUnique_update hs hdup hpid

/-- Claim C1 is false as stated: a Create whose body carries two variants with
the same non-empty barcode inside the one product is accepted, and the stored
product holds the duplicate pair. -/
theorem same_product_duplicate_barcode_accepted :
    applyWrite 5 (.createOp { emptyBody with
      _id := some "P1", nombre := some "X",
      variantes := some [bareVariante (some "111"), bareVariante (some "111")] }) [] =
      [{ id := "P1", nombre := some "X", codigo_atc := none, requiere_receta := none,
         habilitado := true, keywords := [],
         variantes := [bareVariante (some "111"), bareVariante (some "111")],
         creado_en := 5, actualizado_en := 5 }] := by
  decide

theorem writes_preserve_crossDocUnique_witness :
    crossDocUnique ([] : State) ∧
      crossDocUnique (applyWrite 7
        (.createOp { emptyBody with _id := some "P1", nombre := some "X" }) []) :=
  ⟨by simp [crossDocUnique], writes_preserve_crossDocUnique 7
    (.createOp { emptyBody with _id := some "P1", nombre := some "X" }) []
    (by simp [crossDocUnique])⟩

/-! ### Claim C9 -/

theorem castCreate_timestamps {now : Nat} {b : Body}
    (hb : ∀ t, b.creado_en = some t → t ≤ now) :
    (castCreate now b).creado_en ≤ (castCreate now b).actualizado_en := by
  simp only [castCreate]
  cases h : b.creado_en with
  | none => simp
  | some t => simpa [h] using hb t h

theorem upsertInsert_timestamps {now : Nat} {id : String} {b : Body}
    (hb : ∀ t, b.creado_en = some t → t ≤ now) :
    (upsertInsert now id b).creado_en ≤ (upsertInsert now id b).actualizado_en := by
  simp only [upsertInsert]
  cases h : b.creado_en with
  | none => simp
  | some t => simpa [h] using hb t h

theorem applySet_timestamps {now : Nat} {b : Body} {old : Producto}
    (hb : ∀ t, b.creado_en = some t → t ≤ now) (hold : old.creado_en ≤ now) :
    (applySet now b old).creado_en ≤ (applySet now b old).actualizado_en := by
  simp only [applySet]
  cases h : b.creado_en with
  | none => simpa [h] using hold
  | some t => simpa [h] using hb t h

theorem mem_update_cases {s : State} {d p : Producto} {i : String}
    (hp : p ∈ s.map (fun q => if q.id == i then d else q)) : p = d ∨ p ∈ s := by
  obtain ⟨q0, hq0, hq0e⟩ := List.mem_map.mp hp
  by_cases h : q0.id = i
  · left
    rw [← hq0e]; simp [h]
  · right
    have : p = q0 := by rw [← hq0e]; simp [h]
    rw [this]; exact hq0

/-- Claim C9 (amended): the invariant creado_en ≤ actualizado_en is preserved
by every write whose body does not supply a creado_en later than the write
time, under a monotone clock.  The unamended claim fails because a body may
supply creado_en: the hooks stamp only actualizado_en, leaving a supplied
future creado_en in place. -/
theorem writes_preserve_timestampsOrdered (now : Nat) (op : WriteOp) (s : State)
    (hs : timestampsOrdered s)
    (hclock : ∀ p ∈ s, p.actualizado_en ≤ now)
    (hbody : ∀ t, op.body.creado_en = some t → t ≤ now) :
    timestampsOrdered (applyWrite now op s) := by
  cases op with
  | createOp b =>
    simp only [applyWrite]
    cases h : create now b s with
    | error e => exact hs
    | ok r =>
      obtain ⟨p, s2⟩ := r
      obtain ⟨hp, hs2, -, -, -⟩ := create_ok_spec h
      subst hs2
      intro q hq
      rcases List.mem_append.mp hq with hq1 | hq1
      · exact hs q hq1
      · have : q = p := by simpa using hq1
        rw [this, hp]
        exact castCreate_timestamps hbody
  | putOp id b =>
    simp only [applyWrite]
    cases h : put now id b s with
    | error e => exact hs
    | ok r =>
      obtain ⟨p, s2⟩ := r
      obtain ⟨-, -, hcase⟩ := put_ok_spec h
      rcases hcase with ⟨hp, h2⟩ | ⟨old, hold, -, hp, h2⟩ <;> subst h2 <;> intro q hq
      · rcases List.mem_append.mp hq with hq1 | hq1
        · exact hs q hq1
        · have : q = p := by simpa using hq1
          rw [this, hp]
          exact upsertInsert_timestamps hbody
      · rcases mem_update_cases hq with hq1 | hq1
        · rw [hq1, hp]
          exact applySet_timestamps hbody
            (le_trans (hs old hold) (hclock old hold))
        · exact hs q hq1
  | patchOp id b =>
    simp only [applyWrite]
    cases h : patch now id b s with
    | error e => exact hs
    | ok r =>
      obtain ⟨p, s2⟩ := r
      obtain ⟨-, -, h2, old, hold, -, hp⟩ := patch_ok_spec h
      subst h2
      intro q hq
      rcases mem_update_cases hq with hq1 | hq1
      · rw [hq1, hp]
        exact applySet_timestamps hbody
          (le_trans (hs old hold) (hclock old hold))
      · exact hs q hq1

/-- Claim C9 is false as stated: a Create whose body supplies a future
creado_en is stored as given, while the pre save hook stamps actualizado_en
with the earlier current time, so the stored product has
actualizado_en < creado_en. -/
theorem future_creado_en_violates_timestampsOrdered :
    applyWrite 10 (.createOp { emptyBody with
      _id := some "P1", nombre := some "X", creado_en := some 100 }) [] =
      [{ id := "P1", nombre := some "X", codigo_atc := none, requiere_receta := none,
         habilitado := true, keywords := [], variantes := [],
         creado_en := 100, actualizado_en := 10 }] ∧
    ¬ timestampsOrdered (applyWrite 10 (.createOp { emptyBody with
      _id := some "P1", nombre := some "X", creado_en := some 100 }) []) := by
  constructor
  · decide
  · unfold timestampsOrdered
    decide

theorem writes_preserve_timestampsOrdered_witness :
    timestampsOrdered ([] : State) ∧
      timestampsOrdered (applyWrite 3 (.createOp { emptyBody with
        _id := some "P1", nombre := some "X" }) []) := by
  refine ⟨?_, writes_preserve_timestampsOrdered 3
    (.createOp { emptyBody with _id := some "P1", nombre := some "X" }) [] ?_ ?_ ?_⟩
  · unfold timestampsOrdered; decide
  · unfold timestampsOrdered; decide
  · decide
  · intro t ht
    simp [WriteOp.body, emptyBody] at ht

/-! ### Claims C2 and C5 -/

/-- Claim C2 (amended): Replace(id, body) has set-merge upsert semantics.  On
an existing id, each field present in the body (creado_en included) overwrites
the stored value, each absent field keeps its stored value, and actualizado_en
is set to now.  On a nonexistent id a record is inserted with the path id, the
supplied fields, schema defaults for the rest, creado_en = supplied value or
now, actualizado_en = now.  The claim as stated is false: an absent field does
keep its old stored value, because Mongoose turns an operator-free update into
a set merge. -/
theorem put_is_set_merge_upsert (now : Nat) (id : String) (b : Body) (s : State) :
    (∀ old, s.find? (fun q => q.id == id) = some old →
      ∀ p s2, put now id b s = .ok (p, s2) →
        p.id = id ∧
        p.nombre = (match b.nombre with | some n => some n | none => old.nombre) ∧
        p.codigo_atc = b.codigo_atc.getD old.codigo_atc ∧
        p.requiere_receta = b.requiere_receta.getD old.requiere_receta ∧
        p.habilitado = b.habilitado.getD old.habilitado ∧
        p.keywords = b.keywords.getD old.keywords ∧
        p.variantes = b.variantes.getD old.variantes ∧
        p.creado_en = b.creado_en.getD old.creado_en ∧
        p.actualizado_en = now ∧
        s2 = s.map (fun q => if q.id == id then p else q)) ∧
    (s.find? (fun q => q.id == id) = none →
      ∀ p s2, put now id b s = .ok (p, s2) →
        p.id = id ∧
        p.nombre = b.nombre ∧
        p.codigo_atc = b.codigo_atc.getD none ∧
        p.requiere_receta = b.requiere_receta.getD none ∧
        p.habilitado = b.habilitado.getD true ∧
        p.keywords = b.keywords.getD [] ∧
        p.variantes = b.variantes.getD [] ∧
        p.creado_en = b.creado_en.getD now ∧
        p.actualizado_en = now ∧
        s2 = s ++ [p]) := by
  constructor
  · intro old hfind p s2 h
    unfold put at h
    split at h
    · exact absurd h (by simp)
    · split at h
      · next old2 hfind2 =>
        have hoo : old2 = old := by
          have := hfind2.symm.trans hfind
          injection this
        subst hoo
        split at h
        · exact absurd h (by simp)
        · injection h with h2
          injection h2 with hp hs2
          subst hp; subst hs2
          have hoid : old2.id = id := by simpa using List.find?_some hfind2
          exact ⟨by simp [applySet, hoid], rfl, rfl, rfl, rfl, rfl, rfl, rfl, rfl, rfl⟩
      · next hfind2 =>
        rw [hfind] at hfind2
        exact absurd hfind2 (by simp)
  · intro hfind p s2 h
    unfold put at h
    split at h
    · exact absurd h (by simp)
    · split at h
      · next old2 hfind2 =>
        rw [hfind] at hfind2
        exact absurd hfind2 (by simp)
      · split at h
        · exact absurd h (by simp)
        · injection h with h2
          injection h2 with hp hs2
          subst hp; subst hs2
          exact ⟨rfl, rfl, rfl, rfl, rfl, rfl, rfl, rfl, rfl, rfl⟩

/-- Claim C2 is false as stated: a Replace whose body carries only nombre
keeps the stored codigo_atc, requiere_receta, habilitado and keywords of the
fields absent from the body, rather than overwriting every mutable field. -/
theorem put_keeps_fields_absent_from_body :
    put 5 "P1" { emptyBody with nombre := some "Otro" }
      [{ id := "P1", nombre := some "Paracetamol", codigo_atc := some "N02BE01",
         requiere_receta := some true, habilitado := false, keywords := ["dolor"],
         variantes := [], creado_en := 1, actualizado_en := 1 }] =
      .ok ({ id := "P1", nombre := some "Otro", codigo_atc := some "N02BE01",
             requiere_receta := some true, habilitado := false, keywords := ["dolor"],
             variantes := [], creado_en := 1, actualizado_en := 5 },
        [{ id := "P1", nombre := some "Otro", codigo_atc := some "N02BE01",
           requiere_receta := some true, habilitado := false, keywords := ["dolor"],
           variantes := [], creado_en := 1, actualizado_en := 5 }]) :=
  rfl

theorem put_is_set_merge_upsert_witness :
    (upsertInsert 9 "P1" { emptyBody with nombre := some "X" }).id = "P1" ∧
    (upsertInsert 9 "P1" { emptyBody with nombre := some "X" }).nombre =
      ({ emptyBody with nombre := some "X" } : Body).nombre ∧
    (upsertInsert 9 "P1" { emptyBody with nombre := some "X" }).codigo_atc =
      ({ emptyBody with nombre := some "X" } : Body).codigo_atc.getD none ∧
    (upsertInsert 9 "P1" { emptyBody with nombre := some "X" }).requiere_receta =
      ({ emptyBody with nombre := some "X" } : Body).requiere_receta.getD none ∧
    (upsertInsert 9 "P1" { emptyBody with nombre := some "X" }).habilitado =
      ({ emptyBody with nombre := some "X" } : Body).habilitado.getD true ∧
    (upsertInsert 9 "P1" { emptyBody with nombre := some "X" }).keywords =
      ({ emptyBody with nombre := some "X" } : Body).keywords.getD [] ∧
    (upsertInsert 9 "P1" { emptyBody with nombre := some "X" }).variantes =
      ({ emptyBody with nombre := some "X" } : Body).variantes.getD [] ∧
    (upsertInsert 9 "P1" { emptyBody with nombre := some "X" }).creado_en =
      ({ emptyBody with nombre := some "X" } : Body).creado_en.getD 9 ∧
    (upsertInsert 9 "P1" { emptyBody with nombre := some "X" }).actualizado_en = 9 ∧
    ([] ++ [upsertInsert 9 "P1" { emptyBody with nombre := some "X" }] : State) =
      [] ++ [upsertInsert 9 "P1" { emptyBody with nombre := some "X" }] :=
  (put_is_set_merge_upsert 9 "P1" { emptyBody with nombre := some "X" } []).2 (by decide)
    (upsertInsert 9 "P1" { emptyBody with nombre := some "X" })
    ([] ++ [upsertInsert 9 "P1" { emptyBody with nombre := some "X" }]) rfl

/-- Claim C5 (amended): on a nonexistent id, when the body carries no _id and
no barcode of the written document collides with another stored product,
Replace inserts the record; on an existing id, when the body does not supply
creado_en, the stored creado_en is preserved and actualizado_en is set to now,
hence not below its prior value whenever the clock is monotone.  The claim as
stated fails because a body may supply creado_en, which the set merge writes
over the stored value. -/
theorem put_creates_missing_and_preserves_creado_en (now : Nat) (id : String)
    (b : Body) (s : State) (hid : b._id = none) (hbc : b.creado_en = none) :
    (s.find? (fun q => q.id == id) = none →
      hasDupKeyAgainst (upsertInsert now id b) s = false →
      put now id b s = .ok (upsertInsert now id b, s ++ [upsertInsert now id b])) ∧
    (∀ old, s.find? (fun q => q.id == id) = some old →
      ∀ p s2, put now id b s = .ok (p, s2) →
        p.creado_en = old.creado_en ∧ p.actualizado_en = now ∧
        (old.actualizado_en ≤ now → old.actualizado_en ≤ p.actualizado_en)) := by
  constructor
  · intro hfind hdup
    simp [put, hid, hfind, hdup]
  · intro old hfind p s2 h
    unfold put at h
    split at h
    · exact absurd h (by simp)
    · split at h
      · next old2 hfind2 =>
        have hoo : old2 = old := by
          have := hfind2.symm.trans hfind
          injection this
        subst hoo
        split at h
        · exact absurd h (by simp)
        · injection h with h2
          injection h2 with hp hs2
          subst hp; subst hs2
          refine ⟨by simp [applySet, hbc], rfl, ?_⟩
          intro hmono
          simpa [applySet] using hmono
      · next hfind2 =>
        rw [hfind] at hfind2
        exact absurd hfind2 (by simp)

/-- Claim C5 is false as stated: a Replace on an existing id whose body
supplies creado_en = 3 changes the stored creado_en from 1 to 3 instead of
preserving it. -/
theorem put_overwrites_supplied_creado_en :
    put 5 "P1" { emptyBody with creado_en := some 3 }
      [{ id := "P1", nombre := some "X", codigo_atc := none, requiere_receta := none,
         habilitado := true, keywords := [], variantes := [], creado_en := 1,
         actualizado_en := 1 }] =
      .ok ({ id := "P1", nombre := some "X", codigo_atc := none,
             requiere_receta := none, habilitado := true, keywords := [],
             variantes := [], creado_en := 3, actualizado_en := 5 },
        [{ id := "P1", nombre := some "X", codigo_atc := none, requiere_receta := none,
           habilitado := true, keywords := [], variantes := [], creado_en := 3,
           actualizado_en := 5 }]) :=
  rfl

theorem put_creates_missing_and_preserves_creado_en_witness :
    put 7 "P2" emptyBody [] =
      .ok (upsertInsert 7 "P2" emptyBody, [] ++ [upsertInsert 7 "P2" emptyBody]) :=
  (put_creates_missing_and_preserves_creado_en 7 "P2" emptyBody [] rfl rfl).1
    rfl rfl

/-! ### Claim C3 -/

/-- Claim C3 (amended): a Create whose body fails validation is rejected with
ValidationError, and the service responds 500, not 400: the error middleware
maps only the storage duplicate-key error to 409 and everything else,
ValidationError included, to 500 (NotFound being handled inline by routes). -/
theorem validation_failure_maps_to_500 (now : Nat) (b : Body) (s : State)
    (h : create now b s = .error .validationError) :
    postStatus now b s = 500 ∧ errStatus .validationError = 500 ∧
      errStatus .conflict = 409 := by
  refine ⟨?_, rfl, rfl⟩
  unfold postStatus
  rw [h]
  rfl

/-- Claim C3 is false as stated: a Create missing the required nombre fails
validation and the service responds 500, not the claimed 400. -/
theorem validation_failure_responds_500_not_400 :
    create 0 { emptyBody with _id := some "P1" } [] = .error .validationError ∧
    postStatus 0 { emptyBody with _id := some "P1" } [] = 500 ∧
    postStatus 0 { emptyBody with _id := some "P1" } [] ≠ 400 :=
  ⟨rfl, rfl, by decide⟩

theorem validation_failure_maps_to_500_witness :
    postStatus 3 { emptyBody with _id := some "P9" } [] = 500 ∧
      errStatus .validationError = 500 ∧ errStatus .conflict = 409 :=
  validation_failure_maps_to_500 3 { emptyBody with _id := some "P9" } [] rfl

/-! ### Claim C4 -/

theorem barcodeKeys_eq_nil {p : Producto}
    (h : ∀ v ∈ p.variantes, v.codigo_barras = none) : barcodeKeys p = [] := by
  unfold barcodeKeys
  have h2 : p.variantes.filterMap (fun v => v.codigo_barras) = [] :=
    List.filterMap_eq_nil_iff.mpr h
  rw [h2]
  rfl

theorem hasDupKeyAgainst_of_no_keys {d : Producto} {s : State}
    (h : barcodeKeys d = []) : hasDupKeyAgainst d s = false := by
  unfold hasDupKeyAgainst
  rw [h]
  simp

theorem put_succeeds_with_barcode_free_variants (now : Nat) (id : String) (b : Body)
    (s : State) (hid : b._id = none)
    (hv : ∃ vs, b.variantes = some vs ∧ ∀ v ∈ vs, v.codigo_barras = none) :
    (put now id b s).isOk = true := by
  obtain ⟨vs, hbv, hall⟩ := hv
  unfold put
  rw [hid]
  simp only [Option.any_none, Bool.false_eq_true, if_false]
  cases hf : s.find? (fun q => q.id == id) with
  | some old =>
    have hkeys : barcodeKeys (applySet now b old) = [] := by
      apply barcodeKeys_eq_nil
      intro v hvmem
      have he : (applySet now b old).variantes = vs := by simp [applySet, hbv]
      rw [he] at hvmem
      exact hall v hvmem
    simp [hasDupKeyAgainst_of_no_keys hkeys, Except.isOk, Except.toBool]
  | none =>
    have hkeys : barcodeKeys (upsertInsert now id b) = [] := by
      apply barcodeKeys_eq_nil
      intro v hvmem
      have he : (upsertInsert now id b).variantes = vs := by simp [upsertInsert, hbv]
      rw [he] at hvmem
      exact hall v hvmem
    simp [hasDupKeyAgainst_of_no_keys hkeys, Except.isOk, Except.toBool]

/-- Claim C4 (amended): uniqueness ignores variants whose barcode is absent:
two Replace writes each storing variants none of which carries a barcode value
both succeed, whatever the prior state.  The claim as stated is false for
empty barcodes: an empty string is an indexed value, so two products storing
an empty-string barcode conflict (and Create validation rejects absent or
empty barcodes, so barcode-less variants only arise through Replace, which
skips validation). -/
theorem absent_barcode_writes_both_succeed (now1 now2 : Nat) (id1 id2 : String)
    (b1 b2 : Body) (s : State) (h1 : b1._id = none) (h2 : b2._id = none)
    (hv1 : ∃ vs, b1.variantes = some vs ∧ ∀ v ∈ vs, v.codigo_barras = none)
    (hv2 : ∃ vs, b2.variantes = some vs ∧ ∀ v ∈ vs, v.codigo_barras = none) :
    (put now1 id1 b1 s).isOk = true ∧
    (put now2 id2 b2 (applyWrite now1 (.putOp id1 b1) s)).isOk = true :=
  ⟨put_succeeds_with_barcode_free_variants now1 id1 b1 s h1 hv1,
   put_succeeds_with_barcode_free_variants now2 id2 b2 _ h2 hv2⟩

/-- Claim C4 is false as stated: two Replace writes each storing one variant
with an empty-string barcode do not both succeed: the first is stored, the
second fails with the duplicate-key conflict, because the sparse index skips
only documents carrying no barcode value and the empty string is a value. -/
theorem empty_string_barcodes_conflict :
    put 1 "P1" { emptyBody with variantes := some [bareVariante (some "")] } [] =
      .ok (upsertInsert 1 "P1" { emptyBody with variantes := some [bareVariante (some "")] },
        [upsertInsert 1 "P1" { emptyBody with variantes := some [bareVariante (some "")] }]) ∧
    put 2 "P2" { emptyBody with variantes := some [bareVariante (some "")] }
      [upsertInsert 1 "P1" { emptyBody with variantes := some [bareVariante (some "")] }] =
      .error .conflict :=
  ⟨rfl, rfl⟩

theorem absent_barcode_writes_both_succeed_witness :
    (put 1 "P1" { emptyBody with variantes := some [bareVariante none] } []).isOk = true ∧
    (put 2 "P2" { emptyBody with variantes := some [bareVariante none] }
      (applyWrite 1 (.putOp "P1" { emptyBody with variantes := some [bareVariante none] })
        [])).isOk = true :=
  absent_barcode_writes_both_succeed 1 2 "P1" "P2"
    { emptyBody with variantes := some [bareVariante none] }
    { emptyBody with variantes := some [bareVariante none] } [] rfl rfl
    ⟨[bareVariante none], rfl, by decide⟩ ⟨[bareVariante none], rfl, by decide⟩

/-! ### Claim C6 -/

/-- Claim C6 (amended): for a fieldset passing update validation, PartialUpdate
on a nonexistent id fails with NotFound and leaves the catalog unchanged; on an
existing id, a successful PartialUpdate overwrites exactly the fields present
in the fieldset (array fields wholesale, creado_en included), keeps every
absent field, and stamps actualizado_en = now.  The claim as stated fails on a
nonexistent id with an invalid fieldset: update validators run before the
lookup, so the outcome is ValidationError, not NotFound. -/
theorem patch_merge_semantics (now : Nat) (id : String) (b : Body) (s : State) :
    (validatePatch b = true → s.find? (fun q => q.id == id) = none →
      patch now id b s = .error .notFound ∧ applyWrite now (.patchOp id b) s = s) ∧
    (∀ old, s.find? (fun q => q.id == id) = some old →
      ∀ p s2, patch now id b s = .ok (p, s2) →
        p.id = id ∧
        p.nombre = (match b.nombre with | some n => some n | none => old.nombre) ∧
        p.codigo_atc = b.codigo_atc.getD old.codigo_atc ∧
        p.requiere_receta = b.requiere_receta.getD old.requiere_receta ∧
        p.habilitado = b.habilitado.getD old.habilitado ∧
        p.keywords = b.keywords.getD old.keywords ∧
        p.variantes = b.variantes.getD old.variantes ∧
        p.creado_en = b.creado_en.getD old.creado_en ∧
        p.actualizado_en = now ∧
        s2 = s.map (fun q => if q.id == id then p else q)) := by
  constructor
  · intro hv hfind
    have hp : patch now id b s = .error .notFound := by
      simp [patch, hv, hfind]
    exact ⟨hp, by simp [applyWrite, hp]⟩
  · intro old hfind p s2 h
    unfold patch at h
    split at h
    · exact absurd h (by simp)
    · split at h
      · exact absurd h (by simp)
      · next old2 hfind2 =>
        have hoo : old2 = old := by
          have := hfind2.symm.trans hfind
          injection this
        subst hoo
        split at h
        · exact absurd h (by simp)
        · split at h
          · exact absurd h (by simp)
          · injection h with h2
            injection h2 with hp hs2
            subst hp; subst hs2
            have hoid : old2.id = id := by simpa using List.find?_some hfind2
            exact ⟨by simp [applySet, hoid], rfl, rfl, rfl, rfl, rfl, rfl, rfl, rfl, rfl⟩

/-- Claim C6 is false as stated: a PartialUpdate of a nonexistent id whose
fieldset fails validation (empty nombre) is rejected with ValidationError and
responds 500, not NotFound/404. -/
theorem patch_missing_id_invalid_body_not_notFound :
    patch 0 "nope" { emptyBody with nombre := some "" } [] = .error .validationError ∧
    patchStatus 0 "nope" { emptyBody with nombre := some "" } [] = 500 :=
  ⟨rfl, rfl⟩

theorem patch_merge_semantics_witness :
    patch 4 "P9" { emptyBody with habilitado := some false } [] = .error .notFound ∧
    applyWrite 4 (.patchOp "P9" { emptyBody with habilitado := some false }) [] = [] :=
  (patch_merge_semantics 4 "P9" { emptyBody with habilitado := some false } []).1 rfl rfl

/-! ### Claim C7 -/

/-- Claim C7: a Create whose body is a valid product (id and nombre present
and non-empty, every supplied variant carrying a non-empty barcode), whose id
is not in the catalog, and none of whose variant barcodes occurs on any stored
product, succeeds, and GetByID with that id on the resulting state returns the
stored product. -/
theorem create_fresh_then_getById (now : Nat) (b : Body) (s : State) (i : String)
    (hv : validateCreate b = true) (hbi : b._id = some i)
    (hfresh : ∀ q ∈ s, q.id ≠ i)
    (hbar : ∀ q ∈ s, ∀ c ∈ barcodeKeys (castCreate now b), c ∉ barcodeKeys q) :
    create now b s = .ok (castCreate now b, s ++ [castCreate now b]) ∧
    getById i (s ++ [castCreate now b]) = .ok (castCreate now b) := by
  have hcid : (castCreate now b).id = i := by simp [castCreate, hbi]
  have hany : s.any (fun q => q.id == (castCreate now b).id) = false := by
    rw [List.any_eq_false]
    intro q hq
    simp only [hcid, beq_iff_eq]
    exact hfresh q hq
  have hdup : hasDupKeyAgainst (castCreate now b) s = false := by
    rw [hasDupKeyAgainst_eq_false_iff]
    intro q hq hne c hc
    exact hbar q hq c hc
  constructor
  · simp [create, hv, hany, hdup]
  · unfold getById
    have hfs : s.find? (fun q => q.id == i) = none := by
      rw [List.find?_eq_none]
      intro q hq
      simpa using hfresh q hq
    rw [List.find?_append, hfs]
    simp [hcid]

theorem create_fresh_then_getById_witness :
    create 2 bodyP1 [] = .ok (castCreate 2 bodyP1, [] ++ [castCreate 2 bodyP1]) ∧
    getById "P1" ([] ++ [castCreate 2 bodyP1]) = .ok (castCreate 2 bodyP1) :=
  create_fresh_then_getById 2 bodyP1 [] "P1" (by decide) rfl (by decide) (by decide)

/-! ### Claim C8 -/

theorem eraseP_id_no_match (id : String) :
    ∀ s : State, (s.map (fun p => p.id)).Nodup →
      ∀ q ∈ s.eraseP (fun q => q.id == id), q.id ≠ id := by
  intro s
  induction s with
  | nil =>
    intro _ q hq
    simp at hq
  | cons a t ih =>
    intro hnd
    rw [List.map_cons, List.nodup_cons] at hnd
    by_cases ha : a.id = id
    · rw [List.eraseP_cons_of_pos (by simp [ha])]
      intro q hq hqid
      exact hnd.1 (by rw [ha, ← hqid]; exact List.mem_map.mpr ⟨q, hq, rfl⟩)
    · rw [List.eraseP_cons_of_neg (by simp [ha])]
      intro q hq
      rcases List.mem_cons.mp hq with rfl | hq2
      · exact ha
      · exact ih hnd.2 q hq2

/-- Claim C8: after a successful Delete(id), GetByID(id) fails with NotFound,
a second Delete(id) fails with NotFound, and the successful Delete responds
204 with no payload (stored ids being pairwise distinct, as the primary key
guarantees). -/
theorem delete_then_absent (id : String) (s s2 : State)
    (hnd : (s.map (fun p => p.id)).Nodup)
    (h : deleteById id s = .ok s2) :
    getById id s2 = .error .notFound ∧ deleteById id s2 = .error .notFound ∧
    deleteResponse id s = (204, none) := by
  have h0 := h
  unfold deleteById at h
  split at h
  · injection h with hs2
    subst hs2
    have hno := eraseP_id_no_match id s hnd
    refine ⟨?_, ?_, ?_⟩
    · unfold getById
      rw [List.find?_eq_none.mpr (by intro q hq; simpa using hno q hq)]
    · unfold deleteById
      have h3 : (s.eraseP (fun q => q.id == id)).any (fun q => q.id == id) = false := by
        rw [List.any_eq_false]
        intro q hq
        simpa using hno q hq
      simp [h3]
    · simp [deleteResponse, h0]
  · exact absurd h (by simp)

theorem delete_then_absent_witness :
    getById "P1" [] = .error .notFound ∧ deleteById "P1" [] = .error .notFound ∧
    deleteResponse "P1"
      [{ id := "P1", nombre := some "X", codigo_atc := none, requiere_receta := none,
         habilitado := true, keywords := [], variantes := [], creado_en := 0,
         actualizado_en := 0 }] = (204, none) :=
  delete_then_absent "P1"
    [{ id := "P1", nombre := some "X", codigo_atc := none, requiere_receta := none,
       habilitado := true, keywords := [], variantes := [], creado_en := 0,
       actualizado_en := 0 }] [] (by decide) rfl

/-! ### Claim C10 -/

/-- Claim C10: when the limit parameter is absent a Search returns exactly the
first 50 products matching the filter, hence at most 50 even when more match;
and when skip is absent no matches are skipped. -/
theorem search_default_limit_50 (tm : String → Producto → Bool)
    (texto atc rx habilitado : Option String) (s : State) :
    search tm texto atc rx habilitado none none s =
      (s.filter (matchesQuery tm texto atc rx habilitado)).take 50 ∧
    (search tm texto atc rx habilitado none none s).length ≤ 50 := by
  constructor
  · simp [search]
  · simp only [search]
    exact List.length_take_le 50 _

end Catalogo
